import Mathlib

/-!
Verification of the GCP provisioning orchestration in
`src/server_manager/web_app/gcp_account.ts` (class `GcpAccount` and the
module-level helper `makeInstanceName`).

Modelling conventions (shallow embedding):
* The remote cloud control plane is an external collaborator.  Every method
  of `gcp_api.RestApiClient` that the orchestration invokes is recorded as an
  `ApiCall` value in an explicit trace, and the provider's *responses* are
  passed to the modelled method as explicit arguments (for polled operations,
  as a function from the poll index to the returned `Operation`).
* JavaScript `Promise` code is modelled by explicit sequencing; the two
  concurrent continuations composed by `Promise.all` in `createInstance` are
  kept as two separate per-branch traces, since the source imposes no
  ordering between them.
* Polling `while` loops (which have no deadline in the source) receive a
  `fuel` argument; exhausting the fuel models the loop not having terminated
  yet and returns `none`.
* JavaScript values that may be `undefined` are modelled as `Option`;
  dereferencing a missing field (a `TypeError`, hence a rejected promise)
  is modelled as `none` propagation.
-/

/-- GCP long-running operation: `{name, done, error?, targetId?}`.
The `error.errors` shape mirrors the `operation.error?.errors` accesses in
the source. -/
structure OperationError where
  errors : Option (List String)
deriving DecidableEq, Repr

/-- Provider handle for an asynchronous action. -/
structure GcpOperation where
  name : String
  done : Bool
  error : Option OperationError
  targetId : Option String
deriving DecidableEq, Repr

/-- Locator triple `{projectId, zoneId, instanceId}` (from `gcp_api`);
`instanceId` comes from `operation.targetId` and may be absent. -/
structure InstanceLocator where
  projectId : String
  zoneId : String
  instanceId : Option String
deriving DecidableEq, Repr

/-- Access configuration of a network interface; `natIP` is the external
address, absent until assigned. -/
structure AccessConfig where
  natIP : Option String
deriving DecidableEq, Repr

/-- Network interface of an instance. -/
structure NetworkInterface where
  accessConfigs : List AccessConfig
deriving DecidableEq, Repr

/-- Compute Engine instance as read back by `getInstance`. -/
structure GcpInstance where
  name : String
  description : String
  networkInterfaces : List NetworkInterface
deriving DecidableEq, Repr

/-- Response of `getProjectBillingInfo`. -/
structure ProjectBillingInfo where
  billingEnabled : Bool
deriving DecidableEq, Repr

/-- Service config carried by an enabled service (`service.config.name`). -/
structure GcpServiceConfig where
  name : String
deriving DecidableEq, Repr

/-- One entry of the enabled-services list. -/
structure GcpService where
  config : GcpServiceConfig
deriving DecidableEq, Repr

/-- Response of `listEnabledServices`. -/
structure ListEnabledServicesResponse where
  services : List GcpService
deriving DecidableEq, Repr

/-- Response of `enableServices`: an operation name to poll plus an
optional error payload. -/
structure EnableServicesResponse where
  name : String
  error : Option OperationError
deriving DecidableEq, Repr

/-- Zone item returned by `listZones`. -/
structure GcpZone where
  name : String
  region : String
  status : String
deriving DecidableEq, Repr

/-- Project value type `{id, name}` from `model/gcp`. -/
structure Project where
  id : String
  name : String
deriving DecidableEq, Repr

/-- Payload of the `allowed` entries of a firewall rule. -/
structure FirewallAllowedRule where
  IPProtocol : String
deriving DecidableEq, Repr

/-- Payload of `createFirewall`. -/
structure FirewallData where
  name : String
  direction : String
  priority : Nat
  targetTags : List String
  allowed : List FirewallAllowedRule
  sourceRanges : List String
deriving DecidableEq, Repr

/-- Payload of `createStaticIp`; `address` is the instance's current
external IP (absent if the instance had none). -/
structure CreateStaticIpData where
  name : String
  description : String
  address : Option String
deriving DecidableEq, Repr

/-- Payload of `updateProjectBillingInfo`. -/
structure UpdateProjectBillingInfoData where
  name : String
  projectId : String
  billingAccountName : String
deriving DecidableEq, Repr

/-- Payload of the resource-manager `createProject` call. -/
structure CreateProjectData where
  projectId : String
  name : String
  labels : List (String × String)
deriving DecidableEq, Repr

/-- Payload of the compute `createInstance` call (the fields built at
`createInstanceData` in the source; `disks`, `networkInterfaces` and
`metadata` carry the fixed values shown). -/
structure InstanceCreateData where
  name : String
  description : String
  machineType : String
  disksSourceImage : String
  networkInterfaceAccessConfigs : List AccessConfig
  labels : List (String × String)
  tagsItems : List String
  metadataEnableGuestAttributes : String
  metadataUserData : String
deriving DecidableEq, Repr

/-- One remote API invocation performed by the orchestration, with the
request payload it sent. -/
inductive ApiCall where
  | getProjectBillingInfo (projectId : String)
  | listEnabledServices (projectId : String)
  | listFirewalls (projectId : String) (name : String)
  | createFirewall (projectId : String) (data : FirewallData)
  | createInstance (projectId : String) (zoneId : String) (data : InstanceCreateData)
  | computeEngineOperationZoneWait (projectId : String) (zoneId : String) (operationName : String)
  | getInstance (locator : InstanceLocator)
  | createStaticIp (projectId : String) (regionId : String) (data : CreateStaticIpData)
  | createProject (projectId : String) (data : CreateProjectData)
  | resourceManagerOperationGet (operationName : String)
  | updateProjectBillingInfo (projectId : String) (data : UpdateProjectBillingInfoData)
  | enableServices (projectId : String) (serviceIds : List String)
  | serviceUsageOperationGet (operationName : String)
deriving DecidableEq, Repr

namespace ApiCall

/-- True for the calls that create or update cloud state. -/
def isMutation : ApiCall → Bool
  | createFirewall _ _ => true
  | createInstance _ _ _ => true
  | createStaticIp _ _ _ => true
  | createProject _ _ => true
  | updateProjectBillingInfo _ _ => true
  | enableServices _ _ => true
  | _ => false

/-- Recognizes the zone-scoped operation wait call. -/
def isZoneWait : ApiCall → Bool
  | computeEngineOperationZoneWait _ _ _ => true
  | _ => false

/-- Recognizes a static-IP reservation request. -/
def isCreateStaticIp : ApiCall → Bool
  | createStaticIp _ _ _ => true
  | _ => false

/-- Recognizes a billing-link request. -/
def isUpdateProjectBillingInfo : ApiCall → Bool
  | updateProjectBillingInfo _ _ => true
  | _ => false

/-- Recognizes a service-enablement request. -/
def isEnableServices : ApiCall → Bool
  | enableServices _ _ => true
  | _ => false

end ApiCall

/-- Date-time fields as exposed by the JavaScript `Date` object:
`getFullYear`/`getMonth`/`getDate` are local calendar fields (`getMonth`
is 0-based), the `getUTC*` fields are the UTC time of day, and
`milliseconds` carries the sub-second part (never read by the source). -/
structure JsDate where
  fullYear : Nat
  monthIndex : Nat
  dayOfMonth : Nat
  utcHours : Nat
  utcMinutes : Nat
  utcSeconds : Nat
  milliseconds : Nat
deriving DecidableEq, Repr

/-- Module-level helper of `gcp_account.ts`: builds the instance name from
the current date by string interpolation of the raw `Date` fields
(no zero padding; `getMonth()` is the 0-based local month). -/
def makeInstanceName (now : JsDate) : String :=
  "outline-" ++ toString now.fullYear ++ toString now.monthIndex
    ++ toString now.dayOfMonth ++ "-" ++ toString now.utcHours
    ++ toString now.utcMinutes ++ toString now.utcSeconds

/-- Left-pads a numeral to two digits. -/
def pad2 (n : Nat) : String :=
  if n < 10 then "0" ++ toString n else toString n

/-- Modelled from the spec: the `outline-YYYYMMDD-HHMMSS` instance-name
pattern the spec prescribes for the call's wall-clock time — four-digit
year, then zero-padded 1-based month and day, then zero-padded hours,
minutes and seconds.  Stated for comparison with `makeInstanceName`. -/
def specInstanceName (now : JsDate) : String :=
  "outline-" ++ toString now.fullYear ++ pad2 (now.monthIndex + 1)
    ++ pad2 now.dayOfMonth ++ "-" ++ pad2 now.utcHours
    ++ pad2 now.utcMinutes ++ pad2 now.utcSeconds

/-- Two `Date` values fall in the same calendar second exactly when all
fields read by `makeInstanceName` agree (only `milliseconds` may differ). -/
def sameCalendarSecond (d1 d2 : JsDate) : Prop :=
  d1.fullYear = d2.fullYear ∧ d1.monthIndex = d2.monthIndex ∧
    d1.dayOfMonth = d2.dayOfMonth ∧ d1.utcHours = d2.utcHours ∧
    d1.utcMinutes = d2.utcMinutes ∧ d1.utcSeconds = d2.utcSeconds

instance (d1 d2 : JsDate) : Decidable (sameCalendarSecond d1 d2) := by
  unfold sameCalendarSecond
  infer_instance

namespace GcpAccount

/-- Static configuration constant `OUTLINE_PROJECT_NAME`. -/
def OUTLINE_PROJECT_NAME : String := "Outline servers"

/-- Static configuration constant `OUTLINE_FIREWALL_NAME`. -/
def OUTLINE_FIREWALL_NAME : String := "outline"

/-- Static configuration constant `OUTLINE_FIREWALL_TAG`. -/
def OUTLINE_FIREWALL_TAG : String := "outline"

/-- Static configuration constant `MACHINE_SIZE`. -/
def MACHINE_SIZE : String := "f1-micro"

/-- Static configuration constant `REQUIRED_GCP_SERVICES`. -/
def REQUIRED_GCP_SERVICES : List String := ["compute.googleapis.com"]

/-- The `for (const requiredService of REQUIRED_GCP_SERVICES)` loop body of
`isProjectHealthy`: returns `false` as soon as a required service is not
found in the enabled-services list. -/
def requiredServicesPresent (services : List GcpService) : List String → Bool
  | [] => true
  | req :: rest =>
    match services.find? (fun service => service.config.name == req) with
    | none => false
    | some _ => requiredServicesPresent services rest

/-- Method `isProjectHealthy(projectId)`, with the provider's responses as
arguments.  Returns the boolean result and the trace of API calls made:
when billing is disabled it returns `false` without listing services. -/
def isProjectHealthy (projectId : String) (projectBillingInfo : ProjectBillingInfo)
    (listEnabledServicesResponse : ListEnabledServicesResponse) :
    Bool × List ApiCall :=
  if !projectBillingInfo.billingEnabled then
    (false, [ApiCall.getProjectBillingInfo projectId])
  else
    (requiredServicesPresent listEnabledServicesResponse.services REQUIRED_GCP_SERVICES,
      [ApiCall.getProjectBillingInfo projectId, ApiCall.listEnabledServices projectId])

end GcpAccount

/-- Cloud-side firewall state of a project: the names of its firewall
rules, in creation order. -/
structure FirewallState where
  rules : List String
deriving DecidableEq, Repr

/-- Response of `listFirewalls(projectId, name)` derived from the cloud
state: the provider filters by the requested name and omits `items`
entirely when nothing matches (the source guards both shapes). -/
def listFirewallsOf (st : FirewallState) (name : String) : Option (List String) :=
  let matching := st.rules.filter (fun r => r == name)
  if matching.isEmpty then none else some matching

namespace GcpAccount

/-- The fixed `createFirewallData` payload built by
`createFirewallIfNeeded`. -/
def createFirewallData : FirewallData :=
  { name := OUTLINE_FIREWALL_NAME
    direction := "INGRESS"
    priority := 1000
    targetTags := [OUTLINE_FIREWALL_TAG]
    allowed := [{ IPProtocol := "all" }]
    sourceRanges := ["0.0.0.0/0"] }

/-- Method `createFirewallIfNeeded(projectId)` against the cloud firewall
state `st`: lists firewalls by the fixed name and creates the rule only
when none is reported.  `createFirewallOperation` is the provider's
response to the create call; the source inspects its
`error?.errors` field with an empty (`TODO`) body, so it does not affect
the result.  Returns the new cloud state and the trace of API calls. -/
def createFirewallIfNeeded (st : FirewallState) (projectId : String)
    (createFirewallOperation : GcpOperation) : FirewallState × List ApiCall :=
  match listFirewallsOf st OUTLINE_FIREWALL_NAME with
  | none =>
      ({ rules := st.rules ++ [createFirewallData.name] },
        [ApiCall.listFirewalls projectId OUTLINE_FIREWALL_NAME,
         ApiCall.createFirewall projectId createFirewallData])
  | some [] =>
      ({ rules := st.rules ++ [createFirewallData.name] },
        [ApiCall.listFirewalls projectId OUTLINE_FIREWALL_NAME,
         ApiCall.createFirewall projectId createFirewallData])
  | some (_ :: _) =>
      (st, [ApiCall.listFirewalls projectId OUTLINE_FIREWALL_NAME])

end GcpAccount

/-- The `while (!operation?.done)` polling shape shared by `createProject`
and `configureProject`: each iteration sleeps, then fetches the operation
once more (`get i` is the provider's response to the `i`-th poll, counted
from 0).  Returns the terminal operation together with the number of polls
made, or `none` when `fuel` iterations did not reach `done`. -/
def pollUntilDone (get : Nat → GcpOperation) : Nat → Nat → Option (GcpOperation × Nat)
  | 0, _ => none
  | fuel + 1, i =>
    let operation := get i
    if operation.done then some (operation, i + 1) else pollUntilDone get fuel (i + 1)

namespace GcpAccount

/-- Method `configureProject(projectId, billingAccountId)`: links the
billing account, then requests enablement of the required services and
poll-waits that operation until `done`.  The provider supplies the
`enableServices` response and the successive `serviceUsageOperationGet`
results.  The `if (enableServicesResponse.error)` check at the end of the
source has an empty (`TODO`) body, so no input makes the method raise.
Returns the trace of API calls, or `none` when the polling fuel runs out
(the source loop would still be running). -/
def configureProject (projectId billingAccountId : String)
    (enableServicesResponse : EnableServicesResponse)
    (serviceUsageOperationGet : Nat → GcpOperation)
    (fuel : Nat) : Option (List ApiCall) :=
  let updateProjectBillingInfoData : UpdateProjectBillingInfoData :=
    { name := "projects/" ++ projectId ++ "/billingInfo"
      projectId := projectId
      billingAccountName := "billingAccounts/" ++ billingAccountId }
  match pollUntilDone serviceUsageOperationGet fuel 0 with
  | none => none
  | some (_, polls) =>
      some ([ApiCall.updateProjectBillingInfo projectId updateProjectBillingInfoData,
             ApiCall.enableServices projectId REQUIRED_GCP_SERVICES]
        ++ (List.range polls).map
            (fun _ => ApiCall.serviceUsageOperationGet enableServicesResponse.name))

/-- Method `repairProject(projectId, billingAccountId)`: a direct
delegation to `configureProject`. -/
def repairProject (projectId billingAccountId : String)
    (enableServicesResponse : EnableServicesResponse)
    (serviceUsageOperationGet : Nat → GcpOperation)
    (fuel : Nat) : Option (List ApiCall) :=
  configureProject projectId billingAccountId enableServicesResponse
    serviceUsageOperationGet fuel

/-- Method `createProject(projectId, billingAccountId)`: submits the
project-create request (fixed display name, `outline=true` label),
poll-waits the resource-manager operation (the terminal operation's
`error` is inspected by an empty `TODO` branch only), then delegates to
`configureProject` and returns the `{id, name}` project value.
`createProjectResponseName` is the `name` of the operation returned by the
create call; `resourceManagerOperationGet` gives the successive poll
responses. -/
def createProject (projectId billingAccountId : String)
    (createProjectResponseName : String)
    (resourceManagerOperationGet : Nat → GcpOperation)
    (createFuel : Nat)
    (enableServicesResponse : EnableServicesResponse)
    (serviceUsageOperationGet : Nat → GcpOperation)
    (enableFuel : Nat) : Option (Project × List ApiCall) :=
  let createProjectData : CreateProjectData :=
    { projectId := projectId
      name := OUTLINE_PROJECT_NAME
      labels := [("outline", "true")] }
  match pollUntilDone resourceManagerOperationGet createFuel 0 with
  | none => none
  | some (_, polls) =>
      match configureProject projectId billingAccountId enableServicesResponse
          serviceUsageOperationGet enableFuel with
      | none => none
      | some configureTrace =>
          some ({ id := projectId, name := OUTLINE_PROJECT_NAME },
            ApiCall.createProject projectId createProjectData
              :: (List.range polls).map
                  (fun _ => ApiCall.resourceManagerOperationGet createProjectResponseName)
              ++ configureTrace)

end GcpAccount

/-- JavaScript `s.substring(s.lastIndexOf(c) + 1)`: the suffix after the
last occurrence of `c`, or all of `s` when `c` does not occur
(`lastIndexOf` returns -1). -/
def suffixAfterLast (c : Char) (s : String) : String :=
  ⟨(s.toList.reverse.takeWhile (fun x => x ≠ c)).reverse⟩

/-- Modelled from the spec: `getRegionId` lives in `model/gcp`, which is
not part of the reviewed sources; per the spec a zone id determines its
region, obtained by dropping the final dash-separated component
(for example zone `us-central1-a` lies in region `us-central1`). -/
def getRegionId (zoneId : String) : String :=
  match zoneId.toList.reverse.dropWhile (fun x => x ≠ '-') with
  | [] => ""
  | _ :: rest => ⟨rest.reverse⟩

/-- One step of the `zones.map` body in `listLocations`: ensure the
region key exists, then push the zone name when its status is `UP`. -/
def addZoneToMap (result : List (String × List String)) (zone : GcpZone) :
    List (String × List String) :=
  let region := suffixAfterLast '/' zone.region
  let result :=
    if result.any (fun entry => entry.1 == region) then result
    else result ++ [(region, [])]
  if zone.status == "UP" then
    result.map (fun entry =>
      if entry.1 == region then (entry.1, entry.2 ++ [zone.name]) else entry)
  else result

namespace GcpAccount

/-- Method `listLocations(projectId)` applied to the zone list the
provider returned: builds the region-keyed zone map. -/
def listLocations (zones : List GcpZone) : List (String × List String) :=
  zones.foldl addZoneToMap []

/-- Method `promoteEphemeralIpIfNeeded(locator)`: fetches the instance,
reads `networkInterfaces[0].accessConfigs[0].natIP`, and requests a static
address reservation at that exact value.  A missing interface or access
config is a JavaScript `TypeError` (a rejected promise), modelled as
`none`.  The static-IP operation's `error?.errors` is inspected by an
empty (`TODO`) branch only.  Returns the trace of API calls. -/
def promoteEphemeralIpIfNeeded (locator : InstanceLocator) (inst : GcpInstance)
    (createStaticIpOperation : GcpOperation) : Option (List ApiCall) :=
  match inst.networkInterfaces.head? with
  | none => none
  | some networkInterface =>
    match networkInterface.accessConfigs.head? with
    | none => none
    | some accessConfig =>
      let ipAddress := accessConfig.natIP
      let createStaticIpData : CreateStaticIpData :=
        { name := inst.name
          description := inst.description
          address := ipAddress }
      some [ApiCall.getInstance locator,
            ApiCall.createStaticIp locator.projectId (getRegionId locator.zoneId)
              createStaticIpData]

end GcpAccount


/-- Outcome of the composed completion promise: `Promise.all` of the two
continuations resolves, or rejects as soon as either continuation
rejects. -/
inductive CompletionOutcome where
  | success
  | failure
deriving DecidableEq, Repr

/-- What `createInstance` hands back to `createServer` at its `return`
statement, together with the calls it made *before* returning. -/
structure CreateInstanceResult where
  instanceId : Option String
  name : String
  immediateCalls : List ApiCall
deriving DecidableEq, Repr

namespace GcpAccount

/-- Method `getInstallScript()`; `SCRIPT` comes from
`install_scripts/gcp_install_script`, an opaque string payload outside the
reviewed sources, kept as a parameter. -/
def getInstallScript (script : String) : String :=
  "#!/bin/bash -eu\n" ++ script

/-- The `createInstanceData` payload built by `createInstance`. -/
def createInstanceData (name description zoneId script : String) : InstanceCreateData :=
  { name := name
    description := description
    machineType := "zones/" ++ zoneId ++ "/machineTypes/" ++ MACHINE_SIZE
    disksSourceImage := "projects/ubuntu-os-cloud/global/images/family/ubuntu-1804-lts"
    networkInterfaceAccessConfigs := [{ natIP := none }]
    labels := [("outline", "true")]
    tagsItems := [OUTLINE_FIREWALL_TAG]
    metadataEnableGuestAttributes := "TRUE"
    metadataUserData := getInstallScript script }

/-- The part of method `createInstance(projectId, description, zoneId)`
executed before its `return` statement: generate the name, submit the
creation request, and take `operation.targetId` as the instance id.
`operation` is the provider's response to the `createInstance` API call;
nothing here waits for it to reach `done` — the zone-operation wait is
composed into the completion promise, not awaited before returning. -/
def createInstanceImmediate (projectId description zoneId : String) (now : JsDate)
    (script : String) (operation : GcpOperation) : CreateInstanceResult :=
  let name := makeInstanceName now
  { instanceId := operation.targetId
    name := name
    immediateCalls :=
      [ApiCall.createInstance projectId zoneId
        (createInstanceData name description zoneId script)] }

/-- The completion promise composed by `createInstance`:
`Promise.all` of (a) `computeEngineOperationZoneWait` followed by
`promoteEphemeralIpIfNeeded`, and (b) `createFirewallIfNeeded`.
`zoneWaitSucceeds` says whether the zone-operation wait call itself
resolves (it is an external `gcp_api` helper); `inst` is the instance
`getInstance` returns afterwards.  The result carries the outcome of the
joined promise, the trace of continuation (a), and the firewall state and
trace of continuation (b) — the source imposes no order between the two
branches. -/
def createInstanceCompletion (projectId zoneId : String) (operationName : String)
    (instanceId : Option String) (zoneWaitSucceeds : Bool) (inst : GcpInstance)
    (createStaticIpOperation : GcpOperation) (st : FirewallState)
    (createFirewallOperation : GcpOperation) :
    CompletionOutcome × List ApiCall × (FirewallState × List ApiCall) :=
  let locator : InstanceLocator :=
    { projectId := projectId, zoneId := zoneId, instanceId := instanceId }
  let firewallBranch := createFirewallIfNeeded st projectId createFirewallOperation
  if zoneWaitSucceeds then
    match promoteEphemeralIpIfNeeded locator inst createStaticIpOperation with
    | none =>
        (CompletionOutcome.failure,
          [ApiCall.computeEngineOperationZoneWait projectId zoneId operationName,
           ApiCall.getInstance locator],
          firewallBranch)
    | some promoteTrace =>
        (CompletionOutcome.success,
          ApiCall.computeEngineOperationZoneWait projectId zoneId operationName
            :: promoteTrace,
          firewallBranch)
  else
    (CompletionOutcome.failure,
      [ApiCall.computeEngineOperationZoneWait projectId zoneId operationName],
      firewallBranch)

end GcpAccount

/-- Operation response of a provider that reports the action as already
terminal and successful. -/
def doneOp (name : String) : GcpOperation :=
  { name := name, done := true, error := none, targetId := none }

/-- Every zone name stored in the map is accounted for by a zone of the
input list whose status is `UP` and whose region suffix is the entry's
key. -/
def ZoneJustified (zones : List GcpZone) (m : List (String × List String)) : Prop :=
  ∀ entry ∈ m, ∀ n ∈ entry.2, ∃ z ∈ zones,
    z.name = n ∧ z.status = "UP" ∧ suffixAfterLast '/' z.region = entry.1

/-- Helper for checking a single required service: the loop reports
`false` exactly when no enabled service carries the required name. -/
theorem requiredServicesPresent_single_false_iff (svc : List GcpService) (r : String) :
    GcpAccount.requiredServicesPresent svc [r] = false ↔ ∀ s ∈ svc, s.config.name ≠ r := by
  cases h : svc.find? (fun service => service.config.name == r) with
  | none =>
      have h2 := List.find?_eq_none.mp h
      simp only [GcpAccount.requiredServicesPresent, h]
      constructor
      · intro _ s hs
        have := h2 s hs
        simpa using this
      · intro _
        trivial
  | some s =>
      have hs := List.mem_of_find?_eq_some h
      have hp := List.find?_some h
      simp only [beq_iff_eq] at hp
      simp only [GcpAccount.requiredServicesPresent, h]
      constructor
      · intro hx
        exact absurd hx (by simp)
      · intro hAll
        exact absurd hp (hAll s hs)

/-- C4: `isProjectHealthy` returns `false` iff billing is disabled or some
required service id is absent from the enabled-services list (hence it
returns `true` on every superset of the required services with billing
enabled), and its trace contains no create/update call. -/
theorem isProjectHealthy_false_iff (projectId : String) (billing : ProjectBillingInfo)
    (resp : ListEnabledServicesResponse) :
    ((GcpAccount.isProjectHealthy projectId billing resp).1 = false ↔
      billing.billingEnabled = false ∨
        ∃ req ∈ GcpAccount.REQUIRED_GCP_SERVICES, ∀ s ∈ resp.services, s.config.name ≠ req)
    ∧ (∀ c ∈ (GcpAccount.isProjectHealthy projectId billing resp).2, c.isMutation = false) := by
  cases hb : billing.billingEnabled with
  | false =>
      constructor
      · simp [GcpAccount.isProjectHealthy, hb]
      · intro c hc
        simp [GcpAccount.isProjectHealthy, hb] at hc
        simp [hc, ApiCall.isMutation]
  | true =>
      constructor
      · have h1 : (GcpAccount.isProjectHealthy projectId billing resp).1
            = GcpAccount.requiredServicesPresent resp.services GcpAccount.REQUIRED_GCP_SERVICES := by
          simp [GcpAccount.isProjectHealthy, hb]
        rw [h1, show GcpAccount.REQUIRED_GCP_SERVICES = ["compute.googleapis.com"] from rfl,
          requiredServicesPresent_single_false_iff]
        simp [hb, GcpAccount.REQUIRED_GCP_SERVICES]
      · intro c hc
        simp [GcpAccount.isProjectHealthy, hb] at hc
        rcases hc with hc | hc <;> simp [hc, ApiCall.isMutation]

/-- C4 witness: on a concrete unhealthy project (billing disabled) the
equivalence yields `false`. -/
theorem isProjectHealthy_false_iff_witness :
    (GcpAccount.isProjectHealthy "proj-1" ⟨false⟩ ⟨[]⟩).1 = false :=
  (isProjectHealthy_false_iff "proj-1" ⟨false⟩ ⟨[]⟩).1.mpr (Or.inl rfl)

/-- C3: the name built by `makeInstanceName` does not match the spec's
zero-padded `outline-YYYYMMDD-HHMMSS` pattern: at 2021-01-05 01:02:03 UTC
the code yields `outline-202105-123` (0-based unpadded month, unpadded
day and time) where the pattern prescribes `outline-20210105-010203`;
moreover two different calendar dates (2021-02-12 and 2021-12-02, i.e.
month indices 1 and 11) collide at the same time of day, contradicting
the uniqueness the function's own doc comment promises.  The half of the
claim the code does satisfy also holds: two calls within the same
calendar second (differing only in milliseconds) collide. -/
theorem makeInstanceName_deviates_from_spec_pattern :
    makeInstanceName ⟨2021, 0, 5, 1, 2, 3, 0⟩ = "outline-202105-123"
    ∧ specInstanceName ⟨2021, 0, 5, 1, 2, 3, 0⟩ = "outline-20210105-010203"
    ∧ makeInstanceName ⟨2021, 0, 5, 1, 2, 3, 0⟩ ≠ specInstanceName ⟨2021, 0, 5, 1, 2, 3, 0⟩
    ∧ makeInstanceName ⟨2021, 1, 12, 7, 0, 0, 0⟩ = makeInstanceName ⟨2021, 11, 2, 7, 0, 0, 250⟩
    ∧ (⟨2021, 1, 12, 7, 0, 0, 0⟩ : JsDate) ≠ ⟨2021, 11, 2, 7, 0, 0, 250⟩
    ∧ sameCalendarSecond ⟨2021, 5, 17, 10, 20, 30, 100⟩ ⟨2021, 5, 17, 10, 20, 30, 900⟩
    ∧ makeInstanceName ⟨2021, 5, 17, 10, 20, 30, 100⟩
        = makeInstanceName ⟨2021, 5, 17, 10, 20, 30, 900⟩ := by
  refine ⟨rfl, rfl, by decide, rfl, by decide, by decide, rfl⟩

/-- C5: when the project has no rule with the configured name yet, the
first `createFirewallIfNeeded` call lists and then creates exactly one
rule with that name, and a second call sees the existing rule, changes
nothing, and performs nothing besides the list query. -/
theorem createFirewallIfNeeded_idempotent
    (st : FirewallState) (projectId : String) (op1 op2 : GcpOperation)
    (h : st.rules.countP (fun r => r == GcpAccount.OUTLINE_FIREWALL_NAME) = 0) :
    ((GcpAccount.createFirewallIfNeeded st projectId op1).1.rules.countP
        (fun r => r == GcpAccount.OUTLINE_FIREWALL_NAME) = 1)
    ∧ ((GcpAccount.createFirewallIfNeeded st projectId op1).2
        = [ApiCall.listFirewalls projectId GcpAccount.OUTLINE_FIREWALL_NAME,
           ApiCall.createFirewall projectId GcpAccount.createFirewallData])
    ∧ (GcpAccount.createFirewallIfNeeded
          (GcpAccount.createFirewallIfNeeded st projectId op1).1 projectId op2
        = ((GcpAccount.createFirewallIfNeeded st projectId op1).1,
           [ApiCall.listFirewalls projectId GcpAccount.OUTLINE_FIREWALL_NAME])) := by
  have hf : st.rules.filter (fun r => r == GcpAccount.OUTLINE_FIREWALL_NAME) = [] := by
    rw [List.filter_eq_nil_iff]
    intro a ha
    have := List.countP_eq_zero.mp h a ha
    simpa using this
  have hfirst : GcpAccount.createFirewallIfNeeded st projectId op1
      = ({ rules := st.rules ++ [GcpAccount.createFirewallData.name] },
         [ApiCall.listFirewalls projectId GcpAccount.OUTLINE_FIREWALL_NAME,
          ApiCall.createFirewall projectId GcpAccount.createFirewallData]) := by
    simp [GcpAccount.createFirewallIfNeeded, listFirewallsOf, hf]
  have hname : GcpAccount.createFirewallData.name = GcpAccount.OUTLINE_FIREWALL_NAME := rfl
  refine ⟨?_, ?_, ?_⟩
  · rw [hfirst]
    simp [List.countP_append, h, hname]
  · rw [hfirst]
  · rw [hfirst]
    simp [GcpAccount.createFirewallIfNeeded, listFirewallsOf, List.filter_append, hf, hname]

/-- C5 witness: the idempotence property instantiated on an initially
empty firewall state. -/
theorem createFirewallIfNeeded_idempotent_witness :
    ((GcpAccount.createFirewallIfNeeded ⟨[]⟩ "proj-1" ⟨"fw-op", true, none, none⟩).1.rules.countP
        (fun r => r == GcpAccount.OUTLINE_FIREWALL_NAME) = 1)
    ∧ ((GcpAccount.createFirewallIfNeeded ⟨[]⟩ "proj-1" ⟨"fw-op", true, none, none⟩).2
        = [ApiCall.listFirewalls "proj-1" GcpAccount.OUTLINE_FIREWALL_NAME,
           ApiCall.createFirewall "proj-1" GcpAccount.createFirewallData])
    ∧ (GcpAccount.createFirewallIfNeeded
          (GcpAccount.createFirewallIfNeeded ⟨[]⟩ "proj-1" ⟨"fw-op", true, none, none⟩).1 "proj-1"
          ⟨"fw-op-2", true, none, none⟩
        = ((GcpAccount.createFirewallIfNeeded ⟨[]⟩ "proj-1" ⟨"fw-op", true, none, none⟩).1,
           [ApiCall.listFirewalls "proj-1" GcpAccount.OUTLINE_FIREWALL_NAME])) :=
  createFirewallIfNeeded_idempotent ⟨[]⟩ "proj-1" ⟨"fw-op", true, none, none⟩
    ⟨"fw-op-2", true, none, none⟩ (by decide)

/-- Soundness of the polling loop: a successful poll-wait made at least
one query and its terminal operation — the last one fetched — reports
`done`. -/
theorem pollUntilDone_sound (get : Nat → GcpOperation) :
    ∀ fuel i op k, pollUntilDone get fuel i = some (op, k) →
      i < k ∧ op = get (k - 1) ∧ (get (k - 1)).done = true := by
  intro fuel
  induction fuel with
  | zero =>
      intro i op k h
      simp [pollUntilDone] at h
  | succ n ih =>
      intro i op k h
      simp only [pollUntilDone] at h
      by_cases hd : (get i).done
      · simp [hd] at h
        obtain ⟨h1, h2⟩ := h
        subst h2
        simp [← h1, hd]
      · simp [hd] at h
        obtain ⟨hik, hop, hdone⟩ := ih (i + 1) op k h
        exact ⟨Nat.lt_of_succ_lt hik, hop, hdone⟩

/-- The number of polls the loop makes depends only on the `done` flags
of the successive responses, not on their error payloads. -/
theorem pollUntilDone_snd_eq_of_done_eq (get get2 : Nat → GcpOperation)
    (hdone : ∀ i, (get2 i).done = (get i).done) :
    ∀ fuel i, (pollUntilDone get2 fuel i).map Prod.snd = (pollUntilDone get fuel i).map Prod.snd := by
  intro fuel
  induction fuel with
  | zero => intro i; simp [pollUntilDone]
  | succ n ih =>
      intro i
      simp only [pollUntilDone, hdone i]
      by_cases hd : (get i).done
      · simp [hd]
      · simp [hd, ih (i + 1)]

/-- Completeness of the polling loop: if some poll within the fuel bound
reports `done`, the loop terminates. -/
theorem pollUntilDone_isSome_of_done (get : Nat → GcpOperation) :
    ∀ fuel i j, j < fuel → (get (i + j)).done = true →
      (pollUntilDone get fuel i).isSome = true := by
  intro fuel
  induction fuel with
  | zero =>
      intro i j hj hd
      exact absurd hj (by omega)
  | succ n ih =>
      intro i j hj hd
      simp only [pollUntilDone]
      by_cases h0 : (get i).done
      · simp [h0]
      · cases j with
        | zero => simp at hd; exact absurd hd h0
        | succ m =>
            have : (get (i + 1 + m)).done = true := by
              have : i + 1 + m = i + (m + 1) := by omega
              rw [this]; exact hd
            simp [h0]
            exact ih (i + 1) m (by omega) this

/-- C8: whenever `configureProject` returns, its trace is exactly the
billing-link call, then the service-enablement request, then at least one
poll of the enablement operation, whose last response reports `done`;
and `repairProject` is a direct alias of `configureProject`. -/
theorem configureProject_billing_before_enable
    (projectId billingAccountId : String) (resp : EnableServicesResponse)
    (get : Nat → GcpOperation) (fuel : Nat) (trace : List ApiCall)
    (h : GcpAccount.configureProject projectId billingAccountId resp get fuel = some trace) :
    (∃ polls, 0 < polls
      ∧ trace = ApiCall.updateProjectBillingInfo projectId
            ⟨"projects/" ++ projectId ++ "/billingInfo", projectId,
              "billingAccounts/" ++ billingAccountId⟩
          :: ApiCall.enableServices projectId GcpAccount.REQUIRED_GCP_SERVICES
          :: (List.range polls).map (fun _ => ApiCall.serviceUsageOperationGet resp.name)
      ∧ (get (polls - 1)).done = true)
    ∧ GcpAccount.repairProject projectId billingAccountId resp get fuel
        = GcpAccount.configureProject projectId billingAccountId resp get fuel := by
  refine ⟨?_, rfl⟩
  unfold GcpAccount.configureProject at h
  cases hp : pollUntilDone get fuel 0 with
  | none =>
      rw [hp] at h
      simp at h
  | some pr =>
      obtain ⟨op, k⟩ := pr
      rw [hp] at h
      simp at h
      obtain ⟨hik, hop, hdone⟩ := pollUntilDone_sound get fuel 0 op k hp
      exact ⟨k, hik, by simp [← h], hdone⟩

/-- C10: the result of `configureProject` is unchanged under arbitrary
changes to the error payloads of the enablement response and of every
polled operation (only the `done` flags matter), and it returns normally
whenever some poll reports `done` — a service-enablement operation that
completes with an error is indistinguishable from success. -/
theorem configureProject_ignores_operation_error
    (projectId billingAccountId opName : String) (er er2 : Option OperationError)
    (get get2 : Nat → GcpOperation) (fuel : Nat)
    (hdone : ∀ i, (get2 i).done = (get i).done) :
    GcpAccount.configureProject projectId billingAccountId ⟨opName, er2⟩ get2 fuel
      = GcpAccount.configureProject projectId billingAccountId ⟨opName, er⟩ get fuel
    ∧ (∀ j, j < fuel → (get j).done = true →
        (GcpAccount.configureProject projectId billingAccountId ⟨opName, er⟩ get fuel).isSome
          = true) := by
  constructor
  · have hm := pollUntilDone_snd_eq_of_done_eq get get2 hdone fuel 0
    unfold GcpAccount.configureProject
    cases h1 : pollUntilDone get fuel 0 with
    | none =>
        rw [h1] at hm
        cases h2 : pollUntilDone get2 fuel 0 with
        | none => simp
        | some pr =>
            rw [h2] at hm
            simp at hm
    | some pr =>
        rw [h1] at hm
        cases h2 : pollUntilDone get2 fuel 0 with
        | none =>
            rw [h2] at hm
            simp at hm
        | some pr2 =>
            rw [h2] at hm
            simp at hm
            simp [hm]
  · intro j hj hd
    have hs := pollUntilDone_isSome_of_done get fuel 0 j hj (by simpa using hd)
    unfold GcpAccount.configureProject
    cases h1 : pollUntilDone get fuel 0 with
    | none =>
        rw [h1] at hs
        simp at hs
    | some pr => simp

/-- C8 witness: the trace shape instantiated against a provider whose
enablement operation is done at the first poll. -/
theorem configureProject_billing_before_enable_witness :
    ∃ polls, 0 < polls
      ∧ [ApiCall.updateProjectBillingInfo "proj-1"
            ⟨"projects/proj-1/billingInfo", "proj-1", "billingAccounts/BILL-1"⟩,
          ApiCall.enableServices "proj-1" GcpAccount.REQUIRED_GCP_SERVICES,
          ApiCall.serviceUsageOperationGet "es-op"]
        = ApiCall.updateProjectBillingInfo "proj-1"
            ⟨"projects/proj-1/billingInfo", "proj-1", "billingAccounts/BILL-1"⟩
          :: ApiCall.enableServices "proj-1" GcpAccount.REQUIRED_GCP_SERVICES
          :: (List.range polls).map (fun _ => ApiCall.serviceUsageOperationGet "es-op")
      ∧ ((fun _ => doneOp "es-op") (polls - 1) : GcpOperation).done = true :=
  (configureProject_billing_before_enable "proj-1" "BILL-1" ⟨"es-op", none⟩
    (fun _ => doneOp "es-op") 1 _ rfl).1

/-- C10 witness: a provider whose terminal enablement operation carries
an error payload produces exactly the same result as one reporting clean
success. -/
theorem configureProject_ignores_operation_error_witness :
    GcpAccount.configureProject "proj-1" "BILL-1"
        ⟨"es-op", some ⟨some ["service enablement failed"]⟩⟩
        (fun _ => ⟨"es-op", true, some ⟨some ["service enablement failed"]⟩, none⟩) 1
      = GcpAccount.configureProject "proj-1" "BILL-1" ⟨"es-op", none⟩
          (fun _ => doneOp "es-op") 1 :=
  (configureProject_ignores_operation_error "proj-1" "BILL-1" "es-op" none
    (some ⟨some ["service enablement failed"]⟩)
    (fun _ => doneOp "es-op")
    (fun _ => ⟨"es-op", true, some ⟨some ["service enablement failed"]⟩, none⟩) 1
    (fun _ => rfl)).1

/-- C6: `createProject("proj-1", "BILL-1")` against a provider that
reports the create operation as done at the first poll yields the project
`{id: "proj-1", name: "Outline servers"}` and a trace with exactly one
billing-link call and exactly one service-enablement call. -/
theorem createProject_scenario :
    GcpAccount.createProject "proj-1" "BILL-1" "cp-op" (fun _ => doneOp "cp-op") 1
        ⟨"es-op", none⟩ (fun _ => doneOp "es-op") 1
      = some ({ id := "proj-1", name := "Outline servers" },
          [ApiCall.createProject "proj-1" ⟨"proj-1", "Outline servers", [("outline", "true")]⟩,
           ApiCall.resourceManagerOperationGet "cp-op",
           ApiCall.updateProjectBillingInfo "proj-1"
             ⟨"projects/proj-1/billingInfo", "proj-1", "billingAccounts/BILL-1"⟩,
           ApiCall.enableServices "proj-1" ["compute.googleapis.com"],
           ApiCall.serviceUsageOperationGet "es-op"])
    ∧ ([ApiCall.createProject "proj-1" ⟨"proj-1", "Outline servers", [("outline", "true")]⟩,
        ApiCall.resourceManagerOperationGet "cp-op",
        ApiCall.updateProjectBillingInfo "proj-1"
          ⟨"projects/proj-1/billingInfo", "proj-1", "billingAccounts/BILL-1"⟩,
        ApiCall.enableServices "proj-1" ["compute.googleapis.com"],
        ApiCall.serviceUsageOperationGet "es-op"].countP ApiCall.isUpdateProjectBillingInfo = 1)
    ∧ ([ApiCall.createProject "proj-1" ⟨"proj-1", "Outline servers", [("outline", "true")]⟩,
        ApiCall.resourceManagerOperationGet "cp-op",
        ApiCall.updateProjectBillingInfo "proj-1"
          ⟨"projects/proj-1/billingInfo", "proj-1", "billingAccounts/BILL-1"⟩,
        ApiCall.enableServices "proj-1" ["compute.googleapis.com"],
        ApiCall.serviceUsageOperationGet "es-op"].countP ApiCall.isEnableServices = 1) := by
  refine ⟨rfl, rfl, rfl⟩

/-- Creating an (empty) entry for a region key preserves justification. -/
theorem zoneJustified_ensure (zones : List GcpZone) (m : List (String × List String))
    (r : String) (hm : ZoneJustified zones m) :
    ZoneJustified zones
      (if m.any (fun entry => entry.1 == r) then m else m ++ [(r, [])]) := by
  by_cases hc : m.any (fun entry => entry.1 == r)
  · simpa [hc] using hm
  · rw [if_neg hc]
    intro entry he n hn
    rcases List.mem_append.mp he with he2 | he2
    · exact hm entry he2 n hn
    · simp at he2
      subst he2
      simp at hn

/-- Pushing the name of an `UP` zone into its region's entry preserves
justification. -/
theorem zoneJustified_push (zones : List GcpZone) (m : List (String × List String))
    (z : GcpZone) (hz : z ∈ zones) (hup : z.status = "UP")
    (hm : ZoneJustified zones m) :
    ZoneJustified zones
      (m.map (fun entry =>
        if entry.1 == suffixAfterLast '/' z.region then (entry.1, entry.2 ++ [z.name])
        else entry)) := by
  intro entry2 he2 n hn2
  obtain ⟨e, heM, hfe⟩ := List.mem_map.mp he2
  by_cases hc : e.1 == suffixAfterLast '/' z.region
  · rw [if_pos hc] at hfe
    subst hfe
    simp only at hn2
    rcases List.mem_append.mp hn2 with hn3 | hn3
    · exact hm e heM n hn3
    · simp at hn3
      subst hn3
      refine ⟨z, hz, rfl, hup, ?_⟩
      simp only
      exact (beq_iff_eq.mp hc).symm
  · rw [if_neg hc] at hfe
    subst hfe
    exact hm e heM n hn2

/-- One step of the `listLocations` loop preserves justification. -/
theorem addZoneToMap_justified (zones : List GcpZone) (m : List (String × List String))
    (z : GcpZone) (hm : ZoneJustified zones m) (hz : z ∈ zones) :
    ZoneJustified zones (addZoneToMap m z) := by
  unfold addZoneToMap
  by_cases hs : z.status == "UP"
  · simp only [hs, if_true]
    exact zoneJustified_push zones _ z hz (beq_iff_eq.mp hs)
      (zoneJustified_ensure zones m _ hm)
  · simp only [hs, if_false]
    exact zoneJustified_ensure zones m _ hm

/-- The `listLocations` fold preserves justification for any suffix of
the zone list. -/
theorem foldl_addZoneToMap_justified (zones : List GcpZone) :
    ∀ (zs : List GcpZone) (m : List (String × List String)),
      (∀ x ∈ zs, x ∈ zones) → ZoneJustified zones m →
      ZoneJustified zones (zs.foldl addZoneToMap m) := by
  intro zs
  induction zs with
  | nil =>
      intro m _ hm
      simpa using hm
  | cons z rest ih =>
      intro m hsub hm
      simp only [List.foldl_cons]
      exact ih (addZoneToMap m z)
        (fun x hx => hsub x (List.mem_cons_of_mem z hx))
        (addZoneToMap_justified zones m z hm (hsub z (List.mem_cons_self z rest)))

theorem listLocations_only_up_zones (zones : List GcpZone)
    (entry : String × List String) (he : entry ∈ GcpAccount.listLocations zones)
    (n : String) (hn : n ∈ entry.2) :
    ∃ z ∈ zones, z.name = n ∧ z.status = "UP" ∧ suffixAfterLast '/' z.region = entry.1 :=
  foldl_addZoneToMap_justified zones zones [] (fun _ hx => hx)
    (fun e he2 => absurd he2 (List.not_mem_nil e)) entry he n hn

/-- C7 witness: with one `UP` and one `DOWN` zone, the single included
name is justified by the `UP` zone under its region suffix. -/
theorem listLocations_only_up_zones_witness :
    ∃ z ∈ [(⟨"us-central1-a", "projects/p/regions/us-central1", "UP"⟩ : GcpZone),
           ⟨"us-central1-b", "projects/p/regions/us-central1", "DOWN"⟩],
      z.name = "us-central1-a" ∧ z.status = "UP"
        ∧ suffixAfterLast '/' z.region = "us-central1" :=
  listLocations_only_up_zones
    [⟨"us-central1-a", "projects/p/regions/us-central1", "UP"⟩,
     ⟨"us-central1-b", "projects/p/regions/us-central1", "DOWN"⟩]
    ("us-central1", ["us-central1-a"]) (by decide) "us-central1-a" (by decide)

/-- C9: when the instance has an address in its first network interface's
first access configuration, `promoteEphemeralIpIfNeeded` fetches the
instance and issues exactly one static-address reservation whose
`address` field equals that exact IP value. -/
theorem promoteEphemeralIp_reserves_exact_ip
    (locator : InstanceLocator) (inst : GcpInstance) (op : GcpOperation)
    (ni : NetworkInterface) (ac : AccessConfig) (ip : String)
    (hni : inst.networkInterfaces.head? = some ni)
    (hac : ni.accessConfigs.head? = some ac)
    (hip : ac.natIP = some ip) :
    GcpAccount.promoteEphemeralIpIfNeeded locator inst op
      = some [ApiCall.getInstance locator,
              ApiCall.createStaticIp locator.projectId (getRegionId locator.zoneId)
                ⟨inst.name, inst.description, some ip⟩]
    ∧ ((GcpAccount.promoteEphemeralIpIfNeeded locator inst op).getD []).countP
        ApiCall.isCreateStaticIp = 1 := by
  have h1 : GcpAccount.promoteEphemeralIpIfNeeded locator inst op
      = some [ApiCall.getInstance locator,
              ApiCall.createStaticIp locator.projectId (getRegionId locator.zoneId)
                ⟨inst.name, inst.description, some ip⟩] := by
    simp [GcpAccount.promoteEphemeralIpIfNeeded, hni, hac, hip]
  refine ⟨h1, ?_⟩
  rw [h1]
  simp [ApiCall.isCreateStaticIp, ApiCall.isMutation]

/-- C9 witness: a concrete instance holding ephemeral address
203.0.113.5 produces exactly one reservation request at that address. -/
theorem promoteEphemeralIp_reserves_exact_ip_witness :
    GcpAccount.promoteEphemeralIpIfNeeded
        ⟨"proj-1", "us-central1-a", some "instance-1"⟩
        ⟨"outline-202101-000", "My Server", [⟨[⟨some "203.0.113.5"⟩]⟩]⟩
        (doneOp "ip-op")
      = some [ApiCall.getInstance ⟨"proj-1", "us-central1-a", some "instance-1"⟩,
              ApiCall.createStaticIp "proj-1" (getRegionId "us-central1-a")
                ⟨"outline-202101-000", "My Server", some "203.0.113.5"⟩]
    ∧ ((GcpAccount.promoteEphemeralIpIfNeeded
          ⟨"proj-1", "us-central1-a", some "instance-1"⟩
          ⟨"outline-202101-000", "My Server", [⟨[⟨some "203.0.113.5"⟩]⟩]⟩
          (doneOp "ip-op")).getD []).countP ApiCall.isCreateStaticIp = 1 :=
  promoteEphemeralIp_reserves_exact_ip
    ⟨"proj-1", "us-central1-a", some "instance-1"⟩
    ⟨"outline-202101-000", "My Server", [⟨[⟨some "203.0.113.5"⟩]⟩]⟩
    (doneOp "ip-op") ⟨[⟨some "203.0.113.5"⟩]⟩ ⟨some "203.0.113.5"⟩ "203.0.113.5"
    rfl rfl rfl

/-- C1 (amended): `createInstance` returns the handle directly from the
response of the create-instance submission — for any operation response,
done or not: no zone-operation wait happens among the calls made before
the return, the instance id is the submission operation's `targetId`, and
the wait for the creation operation to reach `done` is instead the first
step of the completion signal's instance branch. -/
theorem createInstance_returns_at_submission
    (projectId description zoneId : String) (now : JsDate) (script : String)
    (operation : GcpOperation) (zoneWaitSucceeds : Bool) (inst : GcpInstance)
    (ipOp : GcpOperation) (st : FirewallState) (fwOp : GcpOperation) :
    ((GcpAccount.createInstanceImmediate projectId description zoneId now script
        operation).immediateCalls.all (fun c => !c.isZoneWait) = true)
    ∧ (GcpAccount.createInstanceImmediate projectId description zoneId now script
        operation).instanceId = operation.targetId
    ∧ (GcpAccount.createInstanceImmediate projectId description zoneId now script
        operation).name = makeInstanceName now
    ∧ (GcpAccount.createInstanceCompletion projectId zoneId operation.name
          operation.targetId zoneWaitSucceeds inst ipOp st fwOp).2.1.head?
        = some (ApiCall.computeEngineOperationZoneWait projectId zoneId operation.name) := by
  refine ⟨?_, rfl, rfl, ?_⟩
  · simp [GcpAccount.createInstanceImmediate, ApiCall.isZoneWait]
  · unfold GcpAccount.createInstanceCompletion
    by_cases hz : zoneWaitSucceeds
    · simp only [hz, if_true]
      cases hp : GcpAccount.promoteEphemeralIpIfNeeded
          ⟨projectId, zoneId, operation.targetId⟩ inst ipOp with
      | none => simp [hp]
      | some t => simp [hp]
    · simp [hz]

/-- C1 counterexample: with a provider whose creation operation reports
`done == false`, `createInstance` still returns a fully-formed handle
(name and instance id), and no wait on the operation occurs before the
return — refuting the claim that the handle is returned only after the
instance-creation operation has reached `done`. -/
theorem createInstance_handle_before_operation_done :
    (⟨"create-op", false, none, some "instance-1"⟩ : GcpOperation).done = false
    ∧ (GcpAccount.createInstanceImmediate "proj-1" "My Server" "us-central1-a"
          ⟨2021, 0, 1, 0, 0, 0, 0⟩ "SCRIPT"
          ⟨"create-op", false, none, some "instance-1"⟩).name = "outline-202101-000"
    ∧ (GcpAccount.createInstanceImmediate "proj-1" "My Server" "us-central1-a"
          ⟨2021, 0, 1, 0, 0, 0, 0⟩ "SCRIPT"
          ⟨"create-op", false, none, some "instance-1"⟩).instanceId = some "instance-1"
    ∧ ((GcpAccount.createInstanceImmediate "proj-1" "My Server" "us-central1-a"
          ⟨2021, 0, 1, 0, 0, 0, 0⟩ "SCRIPT"
          ⟨"create-op", false, none, some "instance-1"⟩).immediateCalls.all
        (fun c => !c.isZoneWait) = true) := by
  refine ⟨rfl, rfl, rfl, by decide⟩

/-- C2: the completion signal composed by `createInstance` resolves to
success even when both the static-IP-reservation operation and the
firewall-creation operation report errors: both error checks in the
source have empty (`TODO`) bodies, so a failed step is indistinguishable
from success to a caller waiting on the signal. -/
theorem completion_succeeds_despite_operation_errors :
    (GcpAccount.createInstanceCompletion "proj-1" "us-central1-a" "create-op"
        (some "instance-1") true
        ⟨"outline-202101-000", "My Server", [⟨[⟨some "203.0.113.5"⟩]⟩]⟩
        ⟨"ip-op", true, some ⟨some ["static IP reservation failed"]⟩, none⟩
        ⟨[]⟩
        ⟨"fw-op", true, some ⟨some ["firewall creation failed"]⟩, none⟩).1
      = CompletionOutcome.success
    ∧ (⟨"ip-op", true, some ⟨some ["static IP reservation failed"]⟩, none⟩
        : GcpOperation).error ≠ none
    ∧ (⟨"fw-op", true, some ⟨some ["firewall creation failed"]⟩, none⟩
        : GcpOperation).error ≠ none := by
  refine ⟨rfl, by decide, by decide⟩
